import Mathlib

/-!
Verification of the trace-to-visual-source pipeline of caret_analyze
(plot/visualize_lib/bokeh/bokeh_source.py and
plot/callback_scheduling/callback_scheduling_plot.py).

The Python classes are shallowly embedded: timestamps and metric values are
modelled as exact rationals (the Python code computes with floats; every
concrete value exercised here is exact in both), record tables as lists of
rows, Bokeh column sources as lists of emitted row records, and raised
Python exceptions as `Except` errors.
-/

/-- Error taxonomy of the pipeline, following section 7 of the design
document.  Mapping to the Python exceptions actually raised by the code:
`invalidArgument` is `InvalidArgumentError`; `unsupportedType` is
`UnsupportedTypeError` (carrying its message); `unsupportedKey` is the
`NotImplementedError` raised by `_get_description` / `_get_source_keys` for
an unresolvable key or object kind; `dataIntegrity` is the
`AssertionError` produced by the `ensure_not_none` assert; `unboundLocal`
is the `UnboundLocalError` raised when a Python local (`description`,
`x_item`) is read without ever having been assigned; `indexError` is the
`IndexError` of indexing `communications[-1]` on an empty list. -/
inductive Err
  | invalidArgument
  | unsupportedType (msg : String)
  | unsupportedKey
  | dataIntegrity
  | unboundLocal
  | indexError
deriving DecidableEq

/-- ASCII lowering of a string, the behaviour of Python `str.lower()` on the
ASCII class and column names this code handles. -/
def strLower (s : String) : String := ⟨s.data.map Char.toLower⟩

/-- Python `needle in hay` substring test. -/
def containsSub (needle hay : String) : Bool :=
  (List.range (hay.data.length + 1)).any (fun i => needle.data.isPrefixOf (hay.data.drop i))

/-- Lookup in an association list (a Python dict keyed by `α`). -/
def alookup {α β : Type} [DecidableEq α] : List (α × β) → α → Option β
  | [], _ => none
  | p :: rest, k => if p.1 = k then some p.2 else alookup rest k

/-- Update of an association list (Python dict assignment `d[k] = v`). -/
def aset {α β : Type} [DecidableEq α] : List (α × β) → α → β → List (α × β)
  | [], k, v => [(k, v)]
  | p :: rest, k, v => if p.1 = k then (k, v) :: rest else p :: aset rest k v

/-- Classification of a target object by the `isinstance` checks the source
classes perform.  `serviceCallback` stands for any concrete callback class
other than `TimerCallback` and `SubscriptionCallback`. -/
inductive PyType
  | timerCallback (period_ns : Int)
  | subscriptionCallback (topic : String)
  | serviceCallback
  | communication
  | publisher
  | subscriptionObj
  | other
deriving DecidableEq

/-- True for objects that are `isinstance(obj, CallbackBase)`. -/
def PyType.isCallback : PyType → Bool
  | .timerCallback _ => true
  | .subscriptionCallback _ => true
  | .serviceCallback => true
  | _ => false

/-- True exactly for `TimerCallback` instances. -/
def PyType.isTimerCallback : PyType → Bool
  | .timerCallback _ => true
  | _ => false

/-- True exactly for `SubscriptionCallback` instances. -/
def PyType.isSubscriptionCallback : PyType → Bool
  | .subscriptionCallback _ => true
  | _ => false

/-- A Python object as seen by the plot layer: its identity (`id(obj)`, the
key of identity-based dict lookups for objects with default equality), its
class name (`type(obj).__name__`), its readable attribute dictionary
(`getattr`), and its `isinstance` classification. -/
structure PyObject where
  oid : Nat
  className : String
  attrs : List (String × String)
  ptype : PyType
deriving DecidableEq

/-- State of `LegendManager`: `_legend_count_map` (a `defaultdict(int)` from
class name to the next counter), `_legend_items` (the registered
`(label, renderers)` entries, renderers as opaque ids), and `_legend` (the
label cache keyed by object identity). -/
structure LegendManager where
  legend_count_map : List (String × Nat)
  legend_items : List (String × List Nat)
  legend : List (Nat × String)
deriving DecidableEq

/-- A fresh `LegendManager()`. -/
def LegendManager.empty : LegendManager := ⟨[], [], []⟩

/-- `LegendManager.get_label`: return the cached label of a previously seen
object, otherwise derive `class_name.lower()` plus the per-class counter,
bump the counter and cache the label. -/
def LegendManager.get_label (m : LegendManager) (obj : PyObject) : String × LegendManager :=
  match alookup m.legend obj.oid with
  | some label => (label, m)
  | none =>
    let class_name := obj.className
    let cnt := (alookup m.legend_count_map class_name).getD 0
    let label := strLower class_name ++ Nat.repr cnt
    (label,
      { m with
        legend_count_map := aset m.legend_count_map class_name (cnt + 1),
        legend := aset m.legend obj.oid label })

/-- `LegendManager.add_legend`: record one `(label, [renderer])` entry. -/
def LegendManager.add_legend (m : LegendManager) (obj : PyObject) (renderer : Nat) :
    LegendManager :=
  let r := m.get_label obj
  { r.2 with
    legend_items := r.2.legend_items ++ [(r.1, [renderer])],
    legend := aset r.2.legend obj.oid r.1 }

/-- The loop body of `LegendManager.draw_legends` over the index list
`range(0, len(items) + 10, 10)`: at index `i`, if `full_legends` is false
and `i >= max_legends`, one warning is logged and the loop breaks;
otherwise the page `items[i:i+10]` is added to the figure.  Returns the
emitted pages and the number of warnings logged. -/
def draw_loop {α : Type} (items : List α) (max_legends : Nat) (full_legends : Bool) :
    List Nat → List (List α) × Nat
  | [] => ([], 0)
  | i :: rest =>
    if ¬ full_legends ∧ max_legends ≤ i then ([], 1)
    else
      let r := draw_loop items max_legends full_legends rest
      (((items.drop i).take 10) :: r.1, r.2)

/-- `LegendManager.draw_legends`: paginate the registered entries in pages
of 10 over `range(0, len(items) + 10, 10)`.  `range(0, n + 10, 10)` has
`(n + 19) / 10` elements. -/
def draw_legends {α : Type} (items : List α) (max_legends : Nat) (full_legends : Bool) :
    List (List α) × Nat :=
  draw_loop items max_legends full_legends (List.range' 0 ((items.length + 19) / 10) 10)

/-- `np.mean` of a list of rationals: sum divided by length. -/
def listMean (l : List ℚ) : ℚ := l.sum / l.length

/-- `RectValues.__init__` stores `self._x = [callback_start, callback_end]`
and `self._y = [y_min, y_max]`. -/
structure RectValues where
  xlist : List ℚ
  ylist : List ℚ

/-- `RectValues(callback_start, callback_end, y_min, y_max)`. -/
def RectValues.ofSpans (callback_start callback_end y_min y_max : ℚ) : RectValues :=
  { xlist := [callback_start, callback_end], ylist := [y_min, y_max] }

/-- `RectValues.x`: `float(np.mean(self._x))`. -/
def RectValues.x (r : RectValues) : ℚ := listMean r.xlist

/-- `RectValues.y`: `float(np.mean(self._y))`. -/
def RectValues.y (r : RectValues) : ℚ := listMean r.ylist

/-- `RectValues.width`: `abs(self._x[0] - self._x[1])`. -/
def RectValues.width (r : RectValues) : ℚ := |r.xlist.getD 0 0 - r.xlist.getD 1 0|

/-- `RectValues.height`: `abs(self._y[0] - self._y[1])`. -/
def RectValues.height (r : RectValues) : ℚ := |r.ylist.getD 0 0 - r.ylist.getD 1 0|

/-- `BokehSourceInterface._get_description`: resolve a hover key that is not
a plain attribute.  For `callback_param` the Python code assigns the local
`description` only for `TimerCallback` and `SubscriptionCallback`
instances, so any other object reaches `return description` with the local
unassigned (`unboundLocal`); a key with no rule takes the final `else`
branch and raises `NotImplementedError` (`unsupportedKey`).  The
`legend_label` rule reads, and possibly updates, the legend manager. -/
def get_description (m : LegendManager) (key : String) (obj : PyObject) :
    Except Err (String × LegendManager) :=
  if key = "callback_param" then
    match obj.ptype with
    | .timerCallback p => .ok ("period_ns = " ++ toString p, m)
    | .subscriptionCallback t => .ok ("subscribe_topic_name = " ++ t, m)
    | _ => .error .unboundLocal
  else if key = "legend_label" then
    let r := m.get_label obj
    .ok ("legend_label = " ++ r.1, r.2)
  else .error .unsupportedKey

/-- `BokehSourceInterface._get_data_dict`, iterating over the source keys
supplied by the concrete class: for each key, prefer the attribute read
(`getattr`), falling back to `get_description` on `AttributeError`.  Each
emitted entry is the single string the Python code wraps in a one-element
list.  The legend manager state threads through the keys in order. -/
def get_data_dict_keys (obj : PyObject) :
    LegendManager → List String → Except Err (List (String × String) × LegendManager)
  | m, [] => .ok ([], m)
  | m, k :: ks =>
    match alookup obj.attrs k with
    | some v =>
      match get_data_dict_keys obj m ks with
      | .error e => .error e
      | .ok r => .ok ((k, k ++ " = " ++ v) :: r.1, r.2)
    | none =>
      match get_description m k obj with
      | .error e => .error e
      | .ok d =>
        match get_data_dict_keys obj d.2 ks with
        | .error e => .error e
        | .ok r => .ok ((k, d.1) :: r.1, r.2)

/-- `LineSource._get_source_keys`: the per-entity-kind hover key schema of
the time-series line source; any other object raises
`NotImplementedError`. -/
def line_source_keys (obj : PyObject) : Except Err (List String) :=
  if obj.ptype.isCallback then
    .ok ["legend_label", "node_name", "callback_name", "callback_type",
         "callback_param", "symbol"]
  else if obj.ptype = .communication then
    .ok ["legend_label", "topic_name", "publish_node_name", "subscribe_node_name"]
  else if obj.ptype = .publisher ∨ obj.ptype = .subscriptionObj then
    .ok ["legend_label", "node_name", "topic_name"]
  else .error .unsupportedKey

/-- A two-column record table: the timestamp column (`columns[0]`), the
value column (`columns[1]`), and the rows; `none` is a missing value. -/
structure RecordTable where
  ts_column : String
  value_column : String
  rows : List (Option ℚ × Option ℚ)

/-- A record table none of whose consumed cells is missing. -/
def mkTable (ts_column value_column : String) (rows : List (ℚ × ℚ)) : RecordTable :=
  ⟨ts_column, value_column, rows.map (fun p => (some p.1, some p.2))⟩

/-- `ensure_not_none` from `LineSource._get_x_y`: filter the `None` cells
out and assert that nothing was dropped; a dropped cell fails the call
(the `assert`, i.e. `dataIntegrity`). -/
def ensure_not_none (target_seq : List (Option ℚ)) : Except Err (List ℚ) :=
  let not_none_list := target_seq.filterMap id
  if target_seq.length = not_none_list.length then .ok not_none_list
  else .error .dataIntegrity

/-- Configuration of `LineSource`: the frame minimum and the x-axis type. -/
structure LineSource where
  frame_min : ℚ
  xaxis_type : String

/-- `LineSource._get_x_y`: extract both columns (failing on any missing
value), scale the values by `1e-6` when the value column name contains
`latency` or `period` (case-insensitive), and compute the x sequence per
axis mode; an unknown mode leaves the Python local `x_item` unassigned. -/
def LineSource.get_x_y (s : LineSource) (t : RecordTable) :
    Except Err (List ℚ × List ℚ) := do
  let timestamps ← ensure_not_none (t.rows.map Prod.fst)
  let values0 ← ensure_not_none (t.rows.map Prod.snd)
  let values :=
    if containsSub "latency" (strLower t.value_column) = true ∨
        containsSub "period" (strLower t.value_column) = true then
      values0.map (fun v => v * (1 / 1000000))
    else values0
  if s.xaxis_type = "system_time" then
    .ok (timestamps.map (fun ts => (ts - s.frame_min) * (1 / 1000000000)), values)
  else if s.xaxis_type = "index" then
    .ok ((List.range values.length).map (fun i => (i : ℚ)), values)
  else if s.xaxis_type = "sim_time" then
    .ok (timestamps, values)
  else .error .unboundLocal

/-- `LineSource.generate`: build the empty column source from the key
schema, assemble the hover data dict, compute the x/y sequences, then
stream one `(x, y)` point per row.  Any failure aborts the whole call with
no partial source. -/
def LineSource.generate (s : LineSource) (m : LegendManager) (obj : PyObject)
    (t : RecordTable) :
    Except Err (List (String × String) × List (ℚ × ℚ) × LegendManager) := do
  let keys ← line_source_keys obj
  let r ← get_data_dict_keys obj m keys
  let xy ← s.get_x_y t
  .ok (r.1, xy.1.zip xy.2, r.2)

/-- `CallbackSchedRectSource.RECT_HEIGHT = 0.3`. -/
def RECT_HEIGHT : ℚ := 3 / 10

/-- One streamed row of the callback scheduling rect source.  The Python
code formats `legend_label`, `callback_start`, `callback_end` and
`latency` into strings; the numeric payloads of those strings are kept
here (`legend_label` keeps its full string). -/
structure SchedRectRow where
  legend_label : String
  x : ℚ
  y : ℚ
  width : ℚ
  height : ℚ
  callback_start : ℚ
  callback_end : ℚ
  latency : ℚ

/-- State of `CallbackSchedRectSource`: the running vertical band base and
the optional clock converter (`Clip` shaping happens upstream of the
latency table handed to `generate`). -/
structure CallbackSchedRectSource where
  rect_y_base : ℚ
  converter : Option (ℚ → ℚ)

/-- `self._converter.convert(v) if self._converter else v`. -/
def CallbackSchedRectSource.convert (c : CallbackSchedRectSource) (v : ℚ) : ℚ :=
  match c.converter with
  | some f => f v
  | none => v

/-- The row loop of `CallbackSchedRectSource.generate`: per table row,
convert the first (`row[1]`) and last (`row[-1]`) timestamps, build the
rect geometry around the band base, and stream one row with the legend
label (resolved through the legend manager) and the latency
`(callback_end - callback_start) * 1.0e-6`. -/
def sched_rect_rows (c : CallbackSchedRectSource) (cb : PyObject) :
    LegendManager → List (ℚ × ℚ) → List SchedRectRow × LegendManager
  | m, [] => ([], m)
  | m, row :: rest =>
    let callback_start := c.convert row.1
    let callback_end := c.convert row.2
    let rect := RectValues.ofSpans callback_start callback_end
      (c.rect_y_base - RECT_HEIGHT) (c.rect_y_base + RECT_HEIGHT)
    let r := m.get_label cb
    let entry : SchedRectRow :=
      ⟨"legend_label = " ++ r.1, rect.x, rect.y, rect.width, rect.height,
        callback_start, callback_end, (callback_end - callback_start) * (1 / 1000000)⟩
    let rest' := sched_rect_rows c cb r.2 rest
    (entry :: rest'.1, rest'.2)

/-- `CallbackSchedRectSource.generate`: the column source keys come from
`_get_source_keys`, which raises `NotImplementedError` for anything that
is not a callback; then the rows are streamed. -/
def CallbackSchedRectSource.generate (c : CallbackSchedRectSource) (m : LegendManager)
    (cb : PyObject) (latency_table : List (ℚ × ℚ)) :
    Except Err (List SchedRectRow × LegendManager) :=
  if cb.ptype.isCallback then .ok (sched_rect_rows c cb m latency_table)
  else .error .unsupportedKey

/-- A runtime node as `CallbackSchedulingPlot._get_callback_groups` sees it:
only its `callback_groups` collection matters (callback groups as opaque
ids); `none` models the collection being `None`. -/
structure NodeObj where
  callback_groups : Option (List Nat)
deriving DecidableEq

/-- One hop of a causal path: its publish node and its subscribe node. -/
structure Communication where
  publish_node : NodeObj
  subscribe_node : NodeObj
deriving DecidableEq

/-- The target shapes `CallbackSchedulingPlot` resolves
(`CallbackGroupTypes`): `aggregate` covers the single
`isinstance(target, (Application, Executor, Node))` branch, `pathTarget`
a causal `Path`, `callbackGroup` one group, `cbgSequence` an explicit
sequence. -/
inductive CBGTarget
  | aggregate (callback_groups : Option (List Nat))
  | pathTarget (communications : List Communication)
  | callbackGroup (cbg : Nat)
  | cbgSequence (cbgs : List Nat)

/-- Modelled from the spec: `UniqueList.append` of `caret_analyze.common`
(the class itself is not under src/); per the design document it keeps a
de-duplicated, insertion-order-preserving collection, so an append is
skipped when the element is already present. -/
def unique_append (acc : List Nat) (x : Nat) : List Nat :=
  if x ∈ acc then acc else acc ++ [x]

/-- First-occurrence de-duplication written from the words of the spec
(the de-duplicated, insertion-order-preserving union): keep an element
when it has not been seen yet, in input order. -/
def dedupFirstAux (seen : List Nat) : List Nat → List Nat
  | [] => []
  | a :: l => if a ∈ seen then dedupFirstAux seen l else a :: dedupFirstAux (seen ++ [a]) l

/-- First-occurrence de-duplication of a whole list. -/
def dedupFirst (l : List Nat) : List Nat := dedupFirstAux [] l

/-- `CallbackSchedulingPlot._get_callback_groups`.  For an aggregate a
`None` collection raises `InvalidArgumentError`; for a path the unique
list collects, in order, the callback groups of each hop's publish node
(`or []` turning an absent collection into no contribution) followed by
the last hop's subscribe node (`communications[-1]` raising `IndexError`
on an empty path), and an empty result raises `InvalidArgumentError`. -/
def get_callback_groups : CBGTarget → Except Err (List Nat)
  | .aggregate callback_groups =>
    match callback_groups with
    | none => .error .invalidArgument
    | some l => .ok l
  | .pathTarget communications =>
    let pubAcc := communications.foldl
      (fun acc comm => (comm.publish_node.callback_groups.getD []).foldl unique_append acc) []
    match communications.getLast? with
    | none => .error .indexError
    | some last =>
      let acc := (last.subscribe_node.callback_groups.getD []).foldl unique_append pubAcc
      if acc = [] then .error .invalidArgument else .ok acc
  | .callbackGroup cbg => .ok [cbg]
  | .cbgSequence cbgs => .ok cbgs

/-- `CallbackSchedulingPlot._validate_xaxis_type` and its error message. -/
def xaxis_msg (xaxis_type : String) : String :=
  "Unsupported xaxis_type. xaxis_type = " ++ xaxis_type ++
    ". supported xaxis_type: [system_time/sim_time]"

/-- The `UnsupportedTypeError` message for an invalid coloring rule. -/
def coloring_msg (coloring_rule : String) : String :=
  "Unsupported coloring_rule. coloring_rule = " ++ coloring_rule ++
    ". supported coloring_rule: [callback/callback_group/node]"

/-- `CallbackSchedulingPlot._validate_xaxis_type`. -/
def validate_xaxis_type (xaxis_type : String) : Except Err Unit :=
  if xaxis_type ∈ ["system_time", "sim_time"] then .ok ()
  else .error (.unsupportedType (xaxis_msg xaxis_type))

/-- `CallbackSchedulingPlot.figure`: validate `xaxis_type`, then
`coloring_rule`, then delegate to
`visualize_lib.callback_scheduling`.  The second component records which
source builders ran: empty on every validation failure, the delegated
builder call otherwise. -/
def figure (xaxis_type coloring_rule : String) : Except Err Unit × List String :=
  match validate_xaxis_type xaxis_type with
  | .error e => (.error e, [])
  | .ok _ =>
    if coloring_rule ∈ ["callback", "callback_group", "node"] then
      (.ok (), ["callback_scheduling"])
    else
      (.error (.unsupportedType (coloring_msg coloring_rule)), [])

/-- Numeric decoding of a decimal digit character. -/
def digitVal (c : Char) : Nat := c.toNat - 48

/-- Decode a list of decimal digit characters, most significant first. -/
def decodeDigits (l : List Char) : Nat := l.foldl (fun acc c => 10 * acc + digitVal c) 0

theorem decodeDigits_append_singleton (l : List Char) (c : Char) :
    decodeDigits (l ++ [c]) = 10 * decodeDigits l + digitVal c := by
  simp [decodeDigits, List.foldl_append]

theorem digitVal_digitChar (d : Nat) (h : d < 10) : digitVal (Nat.digitChar d) = d := by
  interval_cases d <;> decide

theorem toDigitsCore_decode (fuel : Nat) :
    ∀ (n : Nat) (ds : List Char), n < fuel →
      ∃ l, Nat.toDigitsCore 10 fuel n ds = l ++ ds ∧ decodeDigits l = n ∧ l ≠ [] := by
  induction fuel with
  | zero => intro n ds h; omega
  | succ fuel ih =>
    intro n ds _
    rw [Nat.toDigitsCore]
    by_cases hz : n / 10 = 0
    · refine ⟨[Nat.digitChar (n % 10)], by simp [hz], ?_, by simp⟩
      have hd : decodeDigits [Nat.digitChar (n % 10)] = digitVal (Nat.digitChar (n % 10)) := by
        simp [decodeDigits, List.foldl]
      rw [hd, digitVal_digitChar (n % 10) (by omega)]
      omega
    · have hlt : n / 10 < fuel := by omega
      obtain ⟨l, hl, hdec, hne⟩ := ih (n / 10) (Nat.digitChar (n % 10) :: ds) hlt
      refine ⟨l ++ [Nat.digitChar (n % 10)], ?_, ?_, by simp⟩
      · simp [hz, hl]
      · rw [decodeDigits_append_singleton, hdec, digitVal_digitChar (n % 10) (by omega)]
        omega

theorem decode_toDigits (n : Nat) : decodeDigits (Nat.toDigits 10 n) = n := by
  obtain ⟨l, hl, hdec, _⟩ := toDigitsCore_decode (n + 1) n [] (by omega)
  rw [Nat.toDigits, hl, List.append_nil, hdec]

theorem natRepr_inj {a b : Nat} (h : Nat.repr a = Nat.repr b) : a = b := by
  have hdata : (Nat.toDigits 10 a) = (Nat.toDigits 10 b) := by
    have := congrArg String.data h
    simpa [Nat.repr, List.asString] using this
  calc a = decodeDigits (Nat.toDigits 10 a) := (decode_toDigits a).symm
    _ = decodeDigits (Nat.toDigits 10 b) := by rw [hdata]
    _ = b := decode_toDigits b

theorem alookup_aset_self {α β : Type} [DecidableEq α] (l : List (α × β)) (k : α) (v : β) :
    alookup (aset l k v) k = some v := by
  induction l with
  | nil => simp [aset, alookup]
  | cons p rest ih =>
    by_cases h : p.1 = k
    · simp [aset, h, alookup]
    · simp [aset, h, alookup, ih]

theorem alookup_aset_ne {α β : Type} [DecidableEq α] (l : List (α × β)) (k k2 : α) (v : β)
    (h : k ≠ k2) : alookup (aset l k v) k2 = alookup l k2 := by
  induction l with
  | nil => simp [aset, alookup, h]
  | cons p rest ih =>
    by_cases hp : p.1 = k
    · simp [aset, hp, alookup, h]
    · simp only [aset, if_neg hp, alookup, ih]

theorem strAppend_natRepr_inj (p : String) {a b : Nat}
    (h : p ++ Nat.repr a = p ++ Nat.repr b) : a = b := by
  have hd := congrArg String.data h
  rw [String.data_append, String.data_append] at hd
  exact natRepr_inj (String.ext (List.append_cancel_left hd))

/-- C9: RectValues yields x = mean(start, end), y = mean(min, max),
width = |start - end|, height = |min - max| for every pair of spans,
including zero-width and negative-ordered ones; the computation is total
with no error conditions. -/
theorem C9_rect_geometry (callback_start callback_end y_min y_max : ℚ) :
    (RectValues.ofSpans callback_start callback_end y_min y_max).x
        = (callback_start + callback_end) / 2 ∧
    (RectValues.ofSpans callback_start callback_end y_min y_max).y
        = (y_min + y_max) / 2 ∧
    (RectValues.ofSpans callback_start callback_end y_min y_max).width
        = |callback_start - callback_end| ∧
    (RectValues.ofSpans callback_start callback_end y_min y_max).height
        = |y_min - y_max| := by
  refine ⟨?_, ?_, ?_, ?_⟩ <;>
    simp [RectValues.ofSpans, RectValues.x, RectValues.y, RectValues.width,
      RectValues.height, listMean]

theorem draw_loop_full {α : Type} (items : List α) (max_legends : Nat) (idxs : List Nat) :
    draw_loop items max_legends true idxs
      = (idxs.map (fun i => (items.drop i).take 10), 0) := by
  induction idxs with
  | nil => rfl
  | cons i rest ih => simp [draw_loop, ih]

theorem flatten_slices {α : Type} (items : List α) (k : Nat) :
    ∀ (s : Nat), ((List.range' s k 10).map (fun i => (items.drop i).take 10)).flatten
      = (items.drop s).take (10 * k) := by
  induction k with
  | zero => intro s; simp
  | succ k ih =>
    intro s
    rw [List.range'_succ]
    simp only [List.map_cons, List.flatten_cons, ih (s + 10)]
    have hdrop : items.drop (s + 10) = (items.drop s).drop 10 := by
      rw [List.drop_drop, Nat.add_comm]
    have htake : 10 * (k + 1) = 10 + 10 * k := by ring
    rw [hdrop, htake, List.take_add]

theorem draw_legends_full {α : Type} (items : List α) (max_legends : Nat) :
    (draw_legends items max_legends true).1.flatten = items ∧
    (draw_legends items max_legends true).2 = 0 := by
  rw [draw_legends, draw_loop_full]
  refine ⟨?_, rfl⟩
  rw [flatten_slices items _ 0, List.drop_zero]
  exact List.take_of_length_le (by omega)

theorem draw_loop_false {α : Type} (items : List α) (max_legends : Nat) (k : Nat) :
    ∀ (j : Nat),
      (draw_loop items max_legends false (List.range' (10 * j) k 10)).1.flatten
          = (items.drop (10 * j)).take (10 * min k ((max_legends + 9) / 10 - j)) ∧
      (draw_loop items max_legends false (List.range' (10 * j) k 10)).2
          = (if (max_legends + 9) / 10 - j < k then 1 else 0) := by
  induction k with
  | zero => intro j; simp [draw_loop]
  | succ k ih =>
    intro j
    rw [List.range'_succ]
    by_cases hbreak : max_legends ≤ 10 * j
    · have hm : (max_legends + 9) / 10 - j = 0 := by omega
      simp [draw_loop, hbreak, hm]
    · have hj : j < (max_legends + 9) / 10 := by omega
      obtain ⟨ih1, ih2⟩ := ih (j + 1)
      have hstep : 10 * j + 10 = 10 * (j + 1) := by ring
      have hcond : ¬ (¬ (false = true) ∧ max_legends ≤ 10 * j) := by
        simp [hbreak]
      constructor
      · simp only [draw_loop, if_neg hcond, List.flatten_cons, hstep, ih1]
        have hdrop : items.drop (10 * (j + 1)) = (items.drop (10 * j)).drop 10 := by
          rw [List.drop_drop]
          congr 1
        have hmin : 10 * min (k + 1) ((max_legends + 9) / 10 - j)
            = 10 + 10 * min k ((max_legends + 9) / 10 - (j + 1)) := by
          omega
        rw [hdrop, hmin, List.take_add]
      · simp only [draw_loop, if_neg hcond, hstep, ih2]
        have hiff : ((max_legends + 9) / 10 - (j + 1) < k)
            ↔ ((max_legends + 9) / 10 - j < k + 1) := by omega
        rw [if_congr hiff rfl rfl]

theorem draw_legends_false {α : Type} (items : List α) (max_legends : Nat) :
    (draw_legends items max_legends false).1.flatten
        = items.take (10 * ((max_legends + 9) / 10)) ∧
    (draw_legends items max_legends false).2
        = (if (max_legends + 9) / 10 < (items.length + 19) / 10 then 1 else 0) := by
  obtain ⟨h1, h2⟩ := draw_loop_false items max_legends ((items.length + 19) / 10) 0
  rw [Nat.mul_zero] at h1 h2
  rw [Nat.sub_zero] at h1 h2
  constructor
  · rw [draw_legends, h1, List.drop_zero]
    rcases le_total ((max_legends + 9) / 10) ((items.length + 19) / 10) with hle | hle
    · rw [min_eq_right hle]
    · rw [min_eq_left hle, List.take_of_length_le (by omega),
        List.take_of_length_le (by omega)]
  · rw [draw_legends, h2]

/-- C1 counterexample: with 25 registered entries and max_legends = 15,
draw_legends with full_legends = false emits 20 entries, so the emission
does not stop once the cumulative count would exceed max_legends (that
would cap the output at 15): the loop only breaks at a page start index
that has reached max_legends. -/
theorem C1_counterexample :
    (draw_legends (List.range 25) 15 false).1.flatten.length = 20 ∧
    ¬ (draw_legends (List.range 25) 15 false).1.flatten.length ≤ 15 := by
  decide

/-- C1 (amended): draw_legends with full_legends = false emits entries in
pages of 10 and stops at the first page whose start index (a multiple of
10) has reached max_legends, so it emits the first
10 * ceil(max_legends / 10) entries (all of them when fewer); exactly one
truncation warning is raised whenever the loop stops early, and none when
the page indices never reach max_legends.  With full_legends = true all
entries are emitted and no warning is raised.  In particular, with 25
registered entries and max_legends = 20, full_legends = false emits
exactly 20 entries as 2 full pages with exactly one warning, and
full_legends = true emits all 25 with no warning. -/
theorem C1_legend_pagination_amended :
    (∀ (α : Type) (items : List α) (max_legends : Nat),
      (draw_legends items max_legends true).1.flatten = items ∧
      (draw_legends items max_legends true).2 = 0 ∧
      (draw_legends items max_legends false).1.flatten
          = items.take (10 * ((max_legends + 9) / 10)) ∧
      (draw_legends items max_legends false).2
          = (if (max_legends + 9) / 10 < (items.length + 19) / 10 then 1 else 0)) ∧
    (draw_legends (List.range 25) 20 false).1 = [List.range' 0 10 1, List.range' 10 10 1] ∧
    (draw_legends (List.range 25) 20 false).2 = 1 ∧
    (draw_legends (List.range 25) 20 true).1.flatten = List.range 25 ∧
    (draw_legends (List.range 25) 20 true).2 = 0 := by
  refine ⟨fun α items max_legends => ?_, by decide, by decide, by decide, by decide⟩
  obtain ⟨hf1, hf2⟩ := draw_legends_full items max_legends
  obtain ⟨hg1, hg2⟩ := draw_legends_false items max_legends
  exact ⟨hf1, hf2, hg1, hg2⟩

/-- C10: with 15 registered entries and max_legends = 20,
full_legends = false, every entry is emitted (nothing is excluded) and the
truncation warning is nevertheless raised once, because the page loop
steps its index by 10 past the entry count (indices 0, 10, 20) and
compares that index, not the number of excluded entries, against
max_legends. -/
theorem C10_warning_without_truncation :
    (draw_legends (List.range 15) 20 false).1.flatten = List.range 15 ∧
    (draw_legends (List.range 15) 20 false).2 = 1 := by
  decide

/-- The fresh branch of get_label spelled out. -/
theorem get_label_fresh (m : LegendManager) (obj : PyObject)
    (h : alookup m.legend obj.oid = none) :
    m.get_label obj
      = (strLower obj.className ++ Nat.repr ((alookup m.legend_count_map obj.className).getD 0),
         { m with
           legend_count_map := aset m.legend_count_map obj.className
             ((alookup m.legend_count_map obj.className).getD 0 + 1),
           legend := aset m.legend obj.oid
             (strLower obj.className
               ++ Nat.repr ((alookup m.legend_count_map obj.className).getD 0)) }) := by
  simp [LegendManager.get_label, h]

/-- C4: repeated get_label calls with the same object return the identical
label (the cache is keyed by object identity, not value equality);
distinct fresh objects of the same kind receive the kind name lowercased
plus a per-kind counter assigned in first-seen order, and their labels are
distinct; in particular the first two objects of class Callback receive
callback0 and callback1. -/
theorem C4_label_identity :
    (∀ (m : LegendManager) (obj : PyObject),
      (((m.get_label obj).2).get_label obj).1 = (m.get_label obj).1) ∧
    (∀ (m : LegendManager) (o1 o2 : PyObject),
      o1.oid ≠ o2.oid → o1.className = o2.className →
      alookup m.legend o1.oid = none → alookup m.legend o2.oid = none →
      (m.get_label o1).1
          = strLower o1.className
            ++ Nat.repr ((alookup m.legend_count_map o1.className).getD 0) ∧
      (((m.get_label o1).2).get_label o2).1
          = strLower o1.className
            ++ Nat.repr ((alookup m.legend_count_map o1.className).getD 0 + 1) ∧
      (m.get_label o1).1 ≠ (((m.get_label o1).2).get_label o2).1) ∧
    ((LegendManager.empty.get_label ⟨0, "Callback", [], .other⟩).1 = "callback0" ∧
      (((LegendManager.empty.get_label ⟨0, "Callback", [], .other⟩).2).get_label
          ⟨1, "Callback", [], .other⟩).1 = "callback1") := by
  refine ⟨?_, ?_, by decide, by decide⟩
  · intro m obj
    match hx : alookup m.legend obj.oid with
    | some label => simp [LegendManager.get_label, hx]
    | none =>
      simp only [LegendManager.get_label, hx]
      rw [alookup_aset_self]
  · intro m o1 o2 hne hcn h1 h2
    rw [get_label_fresh m o1 h1]
    have hm1legend : alookup (aset m.legend o1.oid
        (strLower o1.className
          ++ Nat.repr ((alookup m.legend_count_map o1.className).getD 0))) o2.oid
        = none := by
      rw [alookup_aset_ne _ _ _ _ hne]
      exact h2
    rw [get_label_fresh _ o2 hm1legend]
    simp only [← hcn, alookup_aset_self, Option.getD_some]
    refine ⟨trivial, trivial, ?_⟩
    intro heq
    have := strAppend_natRepr_inj _ heq
    omega

/-- C4 witness: the identity and freshness properties instantiated on two
concrete objects of class Callback in a fresh manager. -/
theorem C4_label_identity_witness :
    (LegendManager.empty.get_label ⟨0, "Callback", [], .other⟩).1
      ≠ (((LegendManager.empty.get_label ⟨0, "Callback", [], .other⟩).2).get_label
          ⟨1, "Callback", [], .other⟩).1 :=
  (C4_label_identity.2.1 LegendManager.empty ⟨0, "Callback", [], .other⟩
    ⟨1, "Callback", [], .other⟩ (by decide) rfl rfl rfl).2.2

/-- C3 counterexample: for a callback that is neither a TimerCallback nor a
SubscriptionCallback, the callback_param description rule does not fail
with the unsupported-key error (the NotImplementedError channel): the
Python local `description` is simply never assigned, so the call fails
with UnboundLocalError instead. -/
theorem C3_counterexample :
    get_description LegendManager.empty "callback_param"
        ⟨0, "ServiceCallback", [], .serviceCallback⟩ = .error .unboundLocal ∧
    get_description LegendManager.empty "callback_param"
        ⟨0, "ServiceCallback", [], .serviceCallback⟩ ≠ .error .unsupportedKey := by
  refine ⟨rfl, ?_⟩
  intro h
  rw [show get_description LegendManager.empty "callback_param"
      ⟨0, "ServiceCallback", [], .serviceCallback⟩ = .error .unboundLocal from rfl] at h
  exact absurd (Except.error.inj h) (by decide)

/-- C3 (amended): the callback_param description rule yields the period for
timer callbacks and the subscribed topic name for subscription callbacks;
for a callback of any other kind it fails with UnboundLocalError (the
local `description` is never assigned), not with the unsupported-key
error; a requested key with no attribute on the object and no description
rule fails with the unsupported-key error (NotImplementedError), both in
description resolution and in data-dict assembly. -/
theorem C3_callback_param_amended :
    (∀ (m : LegendManager) (oid : Nat) (cn : String) (attrs : List (String × String))
        (p : Int),
      get_description m "callback_param" ⟨oid, cn, attrs, .timerCallback p⟩
        = .ok ("period_ns = " ++ toString p, m)) ∧
    (∀ (m : LegendManager) (oid : Nat) (cn : String) (attrs : List (String × String))
        (t : String),
      get_description m "callback_param" ⟨oid, cn, attrs, .subscriptionCallback t⟩
        = .ok ("subscribe_topic_name = " ++ t, m)) ∧
    (∀ (m : LegendManager) (obj : PyObject),
      obj.ptype.isTimerCallback = false → obj.ptype.isSubscriptionCallback = false →
      get_description m "callback_param" obj = .error .unboundLocal) ∧
    (∀ (m : LegendManager) (obj : PyObject) (k : String) (ks : List String),
      alookup obj.attrs k = none → k ≠ "callback_param" → k ≠ "legend_label" →
      get_description m k obj = .error .unsupportedKey ∧
      get_data_dict_keys obj m (k :: ks) = .error .unsupportedKey) := by
  refine ⟨fun m oid cn attrs p => rfl, fun m oid cn attrs t => rfl, ?_, ?_⟩
  · intro m obj ht hs
    match hp : obj.ptype with
    | .timerCallback p => rw [hp] at ht; exact absurd ht (by simp [PyType.isTimerCallback])
    | .subscriptionCallback t =>
      rw [hp] at hs; exact absurd hs (by simp [PyType.isSubscriptionCallback])
    | .serviceCallback => simp [get_description, hp]
    | .communication => simp [get_description, hp]
    | .publisher => simp [get_description, hp]
    | .subscriptionObj => simp [get_description, hp]
    | .other => simp [get_description, hp]
  · intro m obj k ks hattr hk1 hk2
    have hdesc : get_description m k obj = .error .unsupportedKey := by
      simp [get_description, hk1, hk2]
    refine ⟨hdesc, ?_⟩
    simp [get_data_dict_keys, hattr, hdesc]

/-- C3 witness: the timer branch and the no-attribute-no-rule branch
instantiated at concrete inputs. -/
theorem C3_callback_param_amended_witness :
    get_description LegendManager.empty "callback_param"
        ⟨1, "TimerCallback", [], .timerCallback 5⟩
      = .ok ("period_ns = " ++ toString (5 : Int), LegendManager.empty) ∧
    get_data_dict_keys ⟨1, "X", [], .other⟩ LegendManager.empty ["bogus_key"]
      = .error .unsupportedKey :=
  ⟨C3_callback_param_amended.1 LegendManager.empty 1 "TimerCallback" [] 5,
   (C3_callback_param_amended.2.2.2 LegendManager.empty ⟨1, "X", [], .other⟩
      "bogus_key" [] rfl (by decide) (by decide)).2⟩

theorem ensure_not_none_somes (l : List ℚ) : ensure_not_none (l.map some) = .ok l := by
  simp [ensure_not_none]

theorem get_x_y_mkTable (fm : ℚ) (xa tsn vn : String) (rows : List (ℚ × ℚ)) :
    LineSource.get_x_y ⟨fm, xa⟩ (mkTable tsn vn rows)
      = (let values :=
          if containsSub "latency" (strLower vn) = true ∨
              containsSub "period" (strLower vn) = true then
            (rows.map Prod.snd).map (fun v => v * (1 / 1000000))
          else rows.map Prod.snd
         if xa = "system_time" then
          .ok ((rows.map Prod.fst).map (fun ts => (ts - fm) * (1 / 1000000000)), values)
         else if xa = "index" then
          .ok ((List.range values.length).map (fun i => (i : ℚ)), values)
         else if xa = "sim_time" then
          .ok (rows.map Prod.fst, values)
         else .error .unboundLocal) := by
  have hts : (mkTable tsn vn rows).rows.map Prod.fst = (rows.map Prod.fst).map some := by
    simp [mkTable]
  have hvs : (mkTable tsn vn rows).rows.map Prod.snd = (rows.map Prod.snd).map some := by
    simp [mkTable]
  rw [LineSource.get_x_y, hts, hvs, ensure_not_none_somes, ensure_not_none_somes]
  rfl

/-- C5: per axis mode, the x-sequence of a two-column record table is
(timestamp - frame_min) * 1e-9 for system_time, 0..N-1 for index, and the
raw timestamps for sim_time; with frame minimum 10 ns and timestamps
[10, 1e9 + 10] the three modes yield [0, 1] seconds, [0, 1] and
[10, 1e9 + 10]. -/
theorem C5_xaxis_modes :
    (∀ (fm : ℚ) (tsn vn : String) (rows : List (ℚ × ℚ)),
      (LineSource.get_x_y ⟨fm, "system_time"⟩ (mkTable tsn vn rows)).map Prod.fst
          = .ok (rows.map (fun p => (p.1 - fm) * (1 / 1000000000))) ∧
      (LineSource.get_x_y ⟨fm, "index"⟩ (mkTable tsn vn rows)).map Prod.fst
          = .ok ((List.range rows.length).map (fun i => (i : ℚ))) ∧
      (LineSource.get_x_y ⟨fm, "sim_time"⟩ (mkTable tsn vn rows)).map Prod.fst
          = .ok (rows.map Prod.fst)) ∧
    LineSource.get_x_y ⟨10, "system_time"⟩ (mkTable "ts" "value" [(10, 1), (1000000010, 2)])
        = .ok ([0, 1], [1, 2]) ∧
    LineSource.get_x_y ⟨10, "index"⟩ (mkTable "ts" "value" [(10, 1), (1000000010, 2)])
        = .ok ([0, 1], [1, 2]) ∧
    LineSource.get_x_y ⟨10, "sim_time"⟩ (mkTable "ts" "value" [(10, 1), (1000000010, 2)])
        = .ok ([10, 1000000010], [1, 2]) := by
  have hval : containsSub "latency" (strLower "value") = false ∧
      containsSub "period" (strLower "value") = false := by decide
  refine ⟨?_, ?_, ?_, ?_⟩
  · intro fm tsn vn rows
    refine ⟨?_, ?_, ?_⟩ <;> rw [get_x_y_mkTable] <;> by_cases hlat :
        containsSub "latency" (strLower vn) = true ∨
          containsSub "period" (strLower vn) = true <;>
      simp [hlat, Except.map, List.map_map, Function.comp]
  · rw [get_x_y_mkTable]
    simp only [hval.1, hval.2]
    norm_num
  · rw [get_x_y_mkTable]
    simp only [hval.1, hval.2,
      show ("index" = "system_time") = False from by decide,
      show ("index" = "index") = True from by decide]
    norm_num [List.range_succ]
  · rw [get_x_y_mkTable]
    simp only [hval.1, hval.2,
      show ("sim_time" = "system_time") = False from by decide,
      show ("sim_time" = "index") = False from by decide,
      show ("sim_time" = "sim_time") = True from by decide]
    norm_num

theorem sched_rect_rows_latency (base : ℚ) (cb : PyObject) :
    ∀ (m : LegendManager) (table : List (ℚ × ℚ)),
      (sched_rect_rows ⟨base, none⟩ cb m table).1.map SchedRectRow.latency
        = table.map (fun p => (p.2 - p.1) * (1 / 1000000)) := by
  intro m table
  induction table generalizing m with
  | nil => rfl
  | cons row rest ih =>
    simp only [sched_rect_rows, CallbackSchedRectSource.convert, List.map_cons, ih]

/-- C6: in the callback scheduling rect source, the streamed latency field
is (callback_end - callback_start) * 1e-6, so a row with start 0 and end
1e6 ns yields 1.0 ms; in time-series line sources, a value column whose
name contains latency or period (case-insensitive) has every value scaled
by 1e-6, so the value 1e6 yields y = 1.0. -/
theorem C6_latency_conversion :
    (∀ (base : ℚ) (m : LegendManager) (cb : PyObject) (table : List (ℚ × ℚ)),
      cb.ptype.isCallback = true →
      (CallbackSchedRectSource.generate ⟨base, none⟩ m cb table).map
          (fun r => r.1.map SchedRectRow.latency)
        = .ok (table.map (fun p => (p.2 - p.1) * (1 / 1000000)))) ∧
    (∀ (base : ℚ) (m : LegendManager) (cb : PyObject),
      cb.ptype.isCallback = true →
      (CallbackSchedRectSource.generate ⟨base, none⟩ m cb [(0, 1000000)]).map
          (fun r => r.1.map SchedRectRow.latency)
        = .ok [1]) ∧
    (∀ (fm : ℚ) (tsn vn xa : String) (rows : List (ℚ × ℚ)),
      (containsSub "latency" (strLower vn) = true ∨
        containsSub "period" (strLower vn) = true) →
      (xa = "system_time" ∨ xa = "index" ∨ xa = "sim_time") →
      (LineSource.get_x_y ⟨fm, xa⟩ (mkTable tsn vn rows)).map Prod.snd
          = .ok (rows.map (fun p => p.2 * (1 / 1000000)))) ∧
    (LineSource.get_x_y ⟨0, "sim_time"⟩ (mkTable "ts" "dds_latency" [(5, 1000000)])).map
        Prod.snd = .ok [1] := by
  have hpart1 : ∀ (base : ℚ) (m : LegendManager) (cb : PyObject) (table : List (ℚ × ℚ)),
      cb.ptype.isCallback = true →
      (CallbackSchedRectSource.generate ⟨base, none⟩ m cb table).map
          (fun r => r.1.map SchedRectRow.latency)
        = .ok (table.map (fun p => (p.2 - p.1) * (1 / 1000000))) := by
    intro base m cb table hcb
    simp only [CallbackSchedRectSource.generate, hcb, if_pos, Except.map]
    rw [sched_rect_rows_latency]
  have hpart3 : ∀ (fm : ℚ) (tsn vn xa : String) (rows : List (ℚ × ℚ)),
      (containsSub "latency" (strLower vn) = true ∨
        containsSub "period" (strLower vn) = true) →
      (xa = "system_time" ∨ xa = "index" ∨ xa = "sim_time") →
      (LineSource.get_x_y ⟨fm, xa⟩ (mkTable tsn vn rows)).map Prod.snd
          = .ok (rows.map (fun p => p.2 * (1 / 1000000))) := by
    intro fm tsn vn xa rows hlat hxa
    rw [get_x_y_mkTable]
    simp only [if_pos hlat]
    rcases hxa with h | h | h <;> subst h <;> simp [Except.map, List.map_map, Function.comp]
  refine ⟨hpart1, ?_, hpart3, ?_⟩
  · intro base m cb hcb
    rw [hpart1 base m cb [(0, 1000000)] hcb]
    norm_num
  · rw [hpart3 0 "ts" "dds_latency" "sim_time" [(5, 1000000)] (by decide) (by simp)]
    norm_num

/-- C6 witness: the rect-source latency of the row (0, 1e6) is 1.0 ms. -/
theorem C6_latency_conversion_witness :
    (CallbackSchedRectSource.generate ⟨0, none⟩ LegendManager.empty
        ⟨0, "TimerCallback", [], .timerCallback 100⟩ [(0, 1000000)]).map
        (fun r => r.1.map SchedRectRow.latency) = .ok [1] :=
  C6_latency_conversion.2.1 0 LegendManager.empty
    ⟨0, "TimerCallback", [], .timerCallback 100⟩ (by decide)

theorem length_filterMap_lt (seq : List (Option ℚ)) (h : none ∈ seq) :
    (seq.filterMap id).length < seq.length := by
  induction seq with
  | nil => cases h
  | cons a rest ih =>
    cases a with
    | none =>
      have := List.length_filterMap_le (id : Option ℚ → Option ℚ) rest
      simp only [List.filterMap_cons, id, List.length_cons]
      omega
    | some v =>
      have hr : none ∈ rest := by simpa using h
      have := ih hr
      simp only [List.filterMap_cons, id, List.length_cons]
      omega

theorem ensure_not_none_fails (seq : List (Option ℚ)) (h : none ∈ seq) :
    ensure_not_none seq = .error .dataIntegrity := by
  unfold ensure_not_none
  rw [if_neg (by have := length_filterMap_lt seq h; omega)]

theorem ensure_not_none_cases (seq : List (Option ℚ)) :
    ensure_not_none seq = .error .dataIntegrity ∨ ∃ l, ensure_not_none seq = .ok l := by
  unfold ensure_not_none
  by_cases h : seq.length = (seq.filterMap id).length
  · right
    exact ⟨_, if_pos h⟩
  · left
    exact if_neg h

/-- C2: whenever either consumed column of the record table has a missing
value at any position, LineSource.generate fails the whole call with the
data-integrity error (the ensure_not_none assert), returning no partial
visual source (the result is the bare error); the data-dict hypotheses
pin the target object down to one whose hover metadata resolves, so that
the failure observed is the one caused by the table. -/
theorem C2_missing_value_fails (s : LineSource) (m : LegendManager) (obj : PyObject)
    (t : RecordTable) (ks : List String) (dd : List (String × String) × LegendManager)
    (h1 : line_source_keys obj = .ok ks)
    (h2 : get_data_dict_keys obj m ks = .ok dd)
    (h3 : ∃ p, p ∈ t.rows ∧ (p.1 = none ∨ p.2 = none)) :
    s.generate m obj t = .error .dataIntegrity := by
  obtain ⟨p, hp, hcase⟩ := h3
  have hxy : s.get_x_y t = .error .dataIntegrity := by
    rw [LineSource.get_x_y]
    rcases hcase with hc | hc
    · have hmem : none ∈ t.rows.map Prod.fst := List.mem_map.mpr ⟨p, hp, by rw [hc]⟩
      rw [ensure_not_none_fails _ hmem]
      rfl
    · have hmem : none ∈ t.rows.map Prod.snd := List.mem_map.mpr ⟨p, hp, by rw [hc]⟩
      rcases ensure_not_none_cases (t.rows.map Prod.fst) with hts | ⟨l, hts⟩
      · rw [hts]
        rfl
      · rw [hts, ensure_not_none_fails _ hmem]
        rfl
  simp only [LineSource.generate, h1, h2, hxy, Bind.bind, Except.bind]

/-- C2 witness: a publisher line source over a table whose single row has a
missing timestamp fails with the data-integrity error. -/
theorem C2_missing_value_fails_witness :
    LineSource.generate ⟨0, "system_time"⟩ LegendManager.empty
        ⟨7, "Publisher", [("node_name", "n"), ("topic_name", "t")], .publisher⟩
        ⟨"ts", "value", [(none, none)]⟩ = .error .dataIntegrity :=
  C2_missing_value_fails _ _ _ _ _ _ rfl rfl ⟨(none, none), by simp, Or.inl rfl⟩

theorem foldl_unique_flatten (L : List (List Nat)) (acc : List Nat) :
    L.foldl (fun a l => l.foldl unique_append a) acc = L.flatten.foldl unique_append acc := by
  induction L generalizing acc with
  | nil => rfl
  | cons l rest ih => simp [List.foldl_append, ih]

theorem foldl_unique_append (l acc : List Nat) :
    l.foldl unique_append acc = acc ++ dedupFirstAux acc l := by
  induction l generalizing acc with
  | nil =>
    rw [List.foldl_nil, show dedupFirstAux acc [] = [] from rfl, List.append_nil]
  | cons x rest ih =>
    by_cases hx : x ∈ acc
    · simp only [List.foldl_cons, unique_append, if_pos hx, ih, dedupFirstAux]
    · simp only [List.foldl_cons, unique_append, if_neg hx, ih, dedupFirstAux,
        List.append_assoc, List.singleton_append]

/-- C7: for a causal path (at least one hop), entity resolution returns the
de-duplicated, insertion-order-preserving union of the callback groups of
every hop's publish node followed by the last hop's subscribe node,
raising InvalidArgumentError when that union is empty (in particular when
no involved node contributes any callback group); for an aggregate whose
callback-group collection is absent it raises InvalidArgumentError. -/
theorem C7_path_callback_groups :
    (∀ (comms : List Communication) (last : Communication),
      comms.getLast? = some last →
      get_callback_groups (.pathTarget comms)
        = (let u := dedupFirst
            ((comms.map (fun c => c.publish_node.callback_groups.getD [])).flatten
              ++ last.subscribe_node.callback_groups.getD [])
           if u = [] then .error .invalidArgument else .ok u)) ∧
    (∀ (comms : List Communication) (last : Communication),
      comms.getLast? = some last →
      (∀ c ∈ comms, c.publish_node.callback_groups.getD [] = []) →
      last.subscribe_node.callback_groups.getD [] = [] →
      get_callback_groups (.pathTarget comms) = .error .invalidArgument) ∧
    get_callback_groups (.aggregate none) = .error .invalidArgument := by
  have hmain : ∀ (comms : List Communication) (last : Communication),
      comms.getLast? = some last →
      get_callback_groups (.pathTarget comms)
        = (let u := dedupFirst
            ((comms.map (fun c => c.publish_node.callback_groups.getD [])).flatten
              ++ last.subscribe_node.callback_groups.getD [])
           if u = [] then .error .invalidArgument else .ok u) := by
    intro comms last hlast
    simp only [get_callback_groups, hlast]
    have hpub : comms.foldl
        (fun acc comm => (comm.publish_node.callback_groups.getD []).foldl unique_append acc) []
        = ((comms.map (fun c => c.publish_node.callback_groups.getD [])).flatten).foldl
            unique_append [] := by
      rw [← foldl_unique_flatten, List.foldl_map]
    rw [hpub, ← List.foldl_append, foldl_unique_append, List.nil_append, dedupFirst]
  refine ⟨hmain, ?_, rfl⟩
  intro comms last hlast hpubs hsub
  rw [hmain comms last hlast]
  have hflat : (comms.map (fun c => c.publish_node.callback_groups.getD [])).flatten
      = [] := by
    rw [List.flatten_eq_nil_iff]
    intro l hl
    obtain ⟨c, hc, rfl⟩ := List.mem_map.mp hl
    exact hpubs c hc
  rw [hflat, hsub]
  rfl

/-- C7 witness: a one-hop path with publish groups [1] and subscribe groups
[2, 1] resolves to [1, 2]; a one-hop path with no groups anywhere raises
InvalidArgumentError; an aggregate with an absent collection raises
InvalidArgumentError. -/
theorem C7_path_callback_groups_witness :
    get_callback_groups (.pathTarget [⟨⟨some [1]⟩, ⟨some [2, 1]⟩⟩]) = .ok [1, 2] ∧
    get_callback_groups (.pathTarget [⟨⟨none⟩, ⟨none⟩⟩]) = .error .invalidArgument := by
  constructor
  · rw [C7_path_callback_groups.1 [⟨⟨some [1]⟩, ⟨some [2, 1]⟩⟩] ⟨⟨some [1]⟩, ⟨some [2, 1]⟩⟩ rfl]
    rfl
  · exact C7_path_callback_groups.2.1 [⟨⟨none⟩, ⟨none⟩⟩] ⟨⟨none⟩, ⟨none⟩⟩ rfl
      (by intro c hc; simp at hc; rw [hc]; rfl) rfl

/-- C8: an xaxis_type outside {system_time, sim_time} makes figure fail
with UnsupportedTypeError whose message names the offending value and the
valid set, and a coloring_rule outside {callback, callback_group, node}
likewise; in both cases no source builder executes (the builder trace is
empty). -/
theorem C8_figure_validation :
    (∀ (xaxis_type coloring_rule : String),
      xaxis_type ∉ ["system_time", "sim_time"] →
      figure xaxis_type coloring_rule
        = (.error (.unsupportedType (xaxis_msg xaxis_type)), []) ∧
      xaxis_type.data <:+: (xaxis_msg xaxis_type).data) ∧
    (∀ (xaxis_type coloring_rule : String),
      xaxis_type ∈ ["system_time", "sim_time"] →
      coloring_rule ∉ ["callback", "callback_group", "node"] →
      figure xaxis_type coloring_rule
        = (.error (.unsupportedType (coloring_msg coloring_rule)), []) ∧
      coloring_rule.data <:+: (coloring_msg coloring_rule).data) := by
  constructor
  · intro xaxis_type coloring_rule hx
    constructor
    · rw [figure, validate_xaxis_type, if_neg hx]
    · have hdata : (xaxis_msg xaxis_type).data
          = ("Unsupported xaxis_type. xaxis_type = ").data ++ xaxis_type.data
            ++ (". supported xaxis_type: [system_time/sim_time]").data := by
        rw [xaxis_msg, String.data_append, String.data_append]
      rw [hdata]
      exact List.infix_append _ _ _
  · intro xaxis_type coloring_rule hx hc
    constructor
    · rw [figure, validate_xaxis_type, if_pos hx]
      rw [if_neg hc]
    · have hdata : (coloring_msg coloring_rule).data
          = ("Unsupported coloring_rule. coloring_rule = ").data ++ coloring_rule.data
            ++ (". supported coloring_rule: [callback/callback_group/node]").data := by
        rw [coloring_msg, String.data_append, String.data_append]
      rw [hdata]
      exact List.infix_append _ _ _

/-- C8 witness: the validations instantiated at the bogus inputs. -/
theorem C8_figure_validation_witness :
    figure "bogus" "callback" = (.error (.unsupportedType (xaxis_msg "bogus")), []) ∧
    figure "system_time" "bogus"
      = (.error (.unsupportedType (coloring_msg "bogus")), []) :=
  ⟨(C8_figure_validation.1 "bogus" "callback" (by decide)).1,
   (C8_figure_validation.2 "system_time" "bogus" (by decide) (by decide)).1⟩
